import Mathlib

/-!
A shallow embedding of datapackage/resource.py: the Resource and
TabularResource classes, their fetch pipeline and the Resource.load factory.
External collaborators (the json and csv standard-library modules, the
filesystem and the requests HTTP client) are modelled as executable Lean
functions; a World structure supplies the filesystem and the network.
-/

namespace Datapackage

/-- Python values as they flow through resource.py: JSON-decodable values,
strings, lists and dicts.  Python tuples are identified with lists (the code
treats both as tabular), and an inline None under the data key is identified
with the absent key, matching dict.get which returns None in both cases. -/
inductive Value where
  | null
  | bool (b : Bool)
  | num (n : Int)
  | str (s : String)
  | list (xs : List Value)
  | dict (kvs : List (String × Value))

/-- The Python type name of an optional value, as interpolated into the
ValueError message of TabularResource raise-if-isnt-tabular-data. -/
def typeNameOf : Option Value → String
  | none => "NoneType"
  | some .null => "NoneType"
  | some (.bool _) => "bool"
  | some (.num _) => "int"
  | some (.str _) => "str"
  | some (.list _) => "list"
  | some (.dict _) => "dict"

/-- The two exception kinds the code distinguishes: ResourceError (raised by
the load-from-path and load-from-url helpers, wrapping the underlying I/O or
HTTP failure; modelled by the URL or path whose fetch failed) and ValueError
(raised by raise-if-isnt-tabular-data; modelled by the Python type name that
the formatted message reports as the actual type). -/
inductive Err where
  | resource (failedLocation : String)
  | valueErr (actualTypeName : String)
deriving DecidableEq

/-- A Python object reference: a value together with its object identity
(the result of the id builtin).  Distinct live objects have distinct oid. -/
structure Obj (α : Type) where
  oid : Nat
  val : α

/-- A resource descriptor (the metadata dict): optional data, path, url and
base entries.  A field that is absent or explicitly None is modelled as
none, matching dict.get. -/
structure Descriptor where
  data : Option (Obj Value)
  path : Option (Obj String)
  url : Option (Obj String)
  base : Option String

/-- The external world: the local filesystem (a path maps to the text of an
existing regular file, or none) and the network (a URL maps to the body of a
successful GET, or none when the request fails or returns a bad status). -/
structure World where
  files : String → Option String
  http : String → Option String

/- ## Model of json.loads (stdlib json module)

A recursive-descent parser for the JSON subset the code exercises: null,
booleans, integer numbers, strings with the basic escapes, arrays and
objects.  The whole input must be consumed (up to trailing whitespace),
matching json.loads, which raises ValueError on any parse failure. -/

/-- Drop leading JSON whitespace. -/
def skipWs : List Char → List Char
  | c :: cs => if c = ' ' ∨ c = '\t' ∨ c = '\n' ∨ c = '\r' then skipWs cs else c :: cs
  | [] => []

/-- Split a character list into the leading run of decimal digits and the rest. -/
def takeDigits : List Char → List Char × List Char
  | c :: cs =>
    if c.isDigit then
      let (ds, r) := takeDigits cs
      (c :: ds, r)
    else ([], c :: cs)
  | [] => ([], [])

/-- Numeric value of a list of decimal digits. -/
def digitsToNat (ds : List Char) : Nat :=
  ds.foldl (fun a c => a * 10 + (c.toNat - 48)) 0

/-- Parse the body of a JSON string after the opening quote, handling the
single-character escapes; returns the decoded characters and the rest of the
input after the closing quote. -/
def jsonStrChars : Nat → List Char → Option (List Char × List Char)
  | 0, _ => none
  | _ + 1, [] => none
  | fuel + 1, c :: cs =>
    if c = '"' then some ([], cs)
    else if c = '\\' then
      match cs with
      | e :: cs2 =>
        let dec : Option Char :=
          if e = '"' then some '"'
          else if e = '\\' then some '\\'
          else if e = '/' then some '/'
          else if e = 'n' then some '\n'
          else if e = 't' then some '\t'
          else if e = 'r' then some '\r'
          else none
        match dec with
        | some d => (jsonStrChars fuel cs2).map fun p => (d :: p.1, p.2)
        | none => none
      | [] => none
    else (jsonStrChars fuel cs).map fun p => (c :: p.1, p.2)

mutual

/-- Parse one JSON value; fuel bounds the nesting recursion. -/
def pVal : Nat → List Char → Option (Value × List Char)
  | 0, _ => none
  | fuel + 1, cs =>
    match skipWs cs with
    | [] => none
    | c :: rest =>
      if c = '[' then
        match skipWs rest with
        | ']' :: r2 => some (.list [], r2)
        | cs2 => (pElems fuel cs2).map fun p => (.list p.1, p.2)
      else if c = '\x7b' then
        match skipWs rest with
        | '\x7d' :: r2 => some (.dict [], r2)
        | cs2 => (pMembers fuel cs2).map fun p => (.dict p.1, p.2)
      else if c = '"' then
        (jsonStrChars (rest.length + 1) rest).map fun p => (.str (String.mk p.1), p.2)
      else if c = 't' then
        match rest with
        | 'r' :: 'u' :: 'e' :: r => some (.bool true, r)
        | _ => none
      else if c = 'f' then
        match rest with
        | 'a' :: 'l' :: 's' :: 'e' :: r => some (.bool false, r)
        | _ => none
      else if c = 'n' then
        match rest with
        | 'u' :: 'l' :: 'l' :: r => some (.null, r)
        | _ => none
      else if c = '-' then
        match takeDigits rest with
        | ([], _) => none
        | (ds, r) => some (.num (-(digitsToNat ds : Int)), r)
      else if c.isDigit then
        match takeDigits (c :: rest) with
        | (ds, r) => some (.num (digitsToNat ds : Int), r)
      else none

/-- Parse the elements of a JSON array after the opening bracket (nonempty
case), up to and including the closing bracket. -/
def pElems : Nat → List Char → Option (List Value × List Char)
  | 0, _ => none
  | fuel + 1, cs =>
    match pVal fuel cs with
    | none => none
    | some (v, r) =>
      match skipWs r with
      | ',' :: r2 => (pElems fuel r2).map fun p => (v :: p.1, p.2)
      | ']' :: r2 => some ([v], r2)
      | _ => none

/-- Parse the members of a JSON object after the opening brace (nonempty
case), up to and including the closing brace. -/
def pMembers : Nat → List Char → Option (List (String × Value) × List Char)
  | 0, _ => none
  | fuel + 1, cs =>
    match skipWs cs with
    | '"' :: r =>
      match jsonStrChars (r.length + 1) r with
      | none => none
      | some (k, r2) =>
        match skipWs r2 with
        | ':' :: r3 =>
          match pVal fuel r3 with
          | none => none
          | some (v, r4) =>
            match skipWs r4 with
            | ',' :: r5 => (pMembers fuel r5).map fun p => ((String.mk k, v) :: p.1, p.2)
            | '\x7d' :: r5 => some ([(String.mk k, v)], r5)
            | _ => none
        | _ => none
    | _ => none

end

/-- Model of json.loads: parse the whole string as one JSON document; none
models the ValueError json.loads raises on invalid input. -/
def jsonLoads (s : String) : Option Value :=
  let cs := s.data
  match pVal (cs.length + 1) cs with
  | some (v, r) => if skipWs r = [] then some v else none
  | none => none

/- ## Model of csv.DictReader (stdlib csv module) -/

/-- Split a character list on a separator character; a trailing separator
yields a trailing empty group, as with string splitting. -/
def splitOnChar (sep : Char) : List Char → List (List Char)
  | [] => [[]]
  | c :: cs =>
    let r := splitOnChar sep cs
    if c = sep then [] :: r
    else
      match r with
      | g :: gs => (c :: g) :: gs
      | [] => [[c]]

/-- Pair header fields with the fields of one row, as DictReader does: a
missing trailing field gets the restval None. -/
def csvZipRow : List String → List String → List (String × Value)
  | [], _ => []
  | h :: hs, [] => (h, .null) :: csvZipRow hs []
  | h :: hs, v :: vs => (h, .str v) :: csvZipRow hs vs

/-- Model of csv.DictReader over the text of the fetched data, with the
default comma dialect and no quoting in play: the first nonblank line gives
the field names, every later nonblank line becomes a dict row. -/
def csvDictRows (s : String) : List Value :=
  let lines := (splitOnChar '\n' s.data).filter (· ≠ []) |>.map String.mk
  match lines with
  | [] => []
  | hdr :: rows =>
    rows.map fun r => .dict (csvZipRow (splitOnChar ',' hdr.data |>.map String.mk)
                                       (splitOnChar ',' r.data |>.map String.mk))

/- ## Resource (resource.py) -/

/-- Model of os.path.join for the two-argument call in absolute-path: an
absolute second component wins; otherwise the components are joined with a
single slash. -/
def osPathJoin (b p : String) : String :=
  match p.data with
  | '/' :: _ => p
  | _ =>
    if b = "" then p
    else
      match b.data.getLast? with
      | some '/' => b ++ p
      | _ => b ++ "/" ++ p

/-- Resolve a path against an optional base path, as absolute-path does when
the path is present: the path is returned unchanged when there is no base
path, else joined. -/
def absJoin (basePath : Option String) (p : String) : String :=
  match basePath with
  | none => p
  | some b => osPathJoin b p

/-- Model of Resource absolute-path: None path or None base path is passed
through unchanged, otherwise os.path.join of the two. -/
def absolutePath (basePath : Option String) (path : Option String) : Option String :=
  match path with
  | none => none
  | some p => some (absJoin basePath p)

/-- Model of the Resource local-data-path property: the resolved path, but
only when it is truthy and names an existing regular file. -/
def localDataPath (w : World) (basePath : Option String) (md : Descriptor) : Option String :=
  match absolutePath basePath (md.path.map Obj.val) with
  | some p => if p ≠ "" ∧ (w.files p).isSome then some p else none
  | none => none

/-- The id of a field as read by metadata-data-ids: the id of the None
singleton for an absent field, and an id distinct from it for every object. -/
def idOf {α : Type} : Option (Obj α) → Nat
  | none => 0
  | some o => o.oid + 1

/-- The identity snapshot dict built by Resource metadata-data-ids. -/
structure SnapIds where
  dataId : Nat
  pathId : Nat
  urlId : Nat
deriving DecidableEq

/-- Model of Resource metadata-data-ids: the ids of the current data, path
and url entries of the metadata dict. -/
def metadataDataIds (md : Descriptor) : SnapIds :=
  ⟨idOf md.data, idOf md.path, idOf md.url⟩

/-- The outcome of one run of the fetch pipeline: the returned data or the
raised error, plus the I/O it performed (full file reads and HTTP GETs). -/
structure Fetched where
  result : Except Err (Option Value)
  fileReads : Nat
  httpGets : Nat

/-- The running state of one load-data call: the data obtained so far, the
first recorded error, and the I/O counters. -/
structure LoadSt where
  data : Option Value
  error : Option Err
  fileReads : Nat
  httpGets : Nat

/-- The inline-data assignment and the path branch of load-data: data starts
as the inline data; when there is none and the path entry is truthy, the
resolved path is read as a local file when it names one, else fetched as a
URL, recording a ResourceError on failure. -/
def loadDataPathStep (w : World) (basePath : Option String) (md : Descriptor) : LoadSt :=
  match md.data, md.path with
  | none, some po =>
    if po.val = "" then ⟨none, none, 0, 0⟩
    else
      match localDataPath w basePath md with
      | some lp => ⟨(w.files lp).map Value.str, none, 1, 0⟩
      | none =>
        match w.http (absJoin basePath po.val) with
        | some t => ⟨some (.str t), none, 0, 1⟩
        | none => ⟨none, some (.resource (absJoin basePath po.val)), 0, 1⟩
  | d, _ => ⟨d.map Obj.val, none, 0, 0⟩

/-- The url branch of load-data: runs only when no data was obtained yet and
the url entry is truthy; a failure is recorded only when no earlier error
was (the first error wins). -/
def loadDataUrlStep (w : World) (md : Descriptor) (st : LoadSt) : LoadSt :=
  match st.data, md.url with
  | none, some uo =>
    if uo.val = "" then st
    else
      match w.http uo.val with
      | some t => { st with data := some (.str t), httpGets := st.httpGets + 1 }
      | none =>
        { st with error := if st.error.isSome then st.error else some (.resource uo.val),
                  httpGets := st.httpGets + 1 }
  | _, _ => st

/-- Model of Resource load-data: inline data verbatim when present; else the
path entry, first as a local file, then resolved as a URL; else the url
entry; the first recorded error is raised only when no branch produced data,
and the data (possibly None) is returned otherwise.  Truthiness of the path
and url strings matches Python (the empty string is falsy). -/
def loadData (w : World) (basePath : Option String) (md : Descriptor) : Fetched :=
  let st := loadDataUrlStep w md (loadDataPathStep w basePath md)
  match st.data, st.error with
  | none, some e => ⟨.error e, st.fileReads, st.httpGets⟩
  | d, _ => ⟨.ok d, st.fileReads, st.httpGets⟩

/-- The outcome of one call to a parse-data method: the identity snapshot it
stored (stored even when the load raises), the data or error, and the I/O
performed. -/
structure Parsed where
  ids : SnapIds
  result : Except Err (Option Value)
  fileReads : Nat
  httpGets : Nat

/-- Model of Resource parse-data: store the identity snapshot of the current
metadata, then run the fetch pipeline.  The snapshot assignment happens
before the load, so it sticks even when the load raises. -/
def parseDataBase (w : World) (basePath : Option String) (md : Descriptor) : Parsed :=
  let f := loadData w basePath md
  ⟨metadataDataIds md, f.result, f.fileReads, f.httpGets⟩

/- ## TabularResource -/

/-- The string-to-structure step of TabularResource parse-data: a string is
parsed as JSON first; when that fails it is read as CSV rows, and an empty
row list becomes None; any non-string value passes through unchanged. -/
def tabularTransform (data : Option Value) : Option Value :=
  match data with
  | some (.str s) =>
    match jsonLoads s with
    | some v => some v
    | none =>
      match csvDictRows s with
      | [] => none
      | rows => some (.list rows)
  | d => d

/-- Model of TabularResource raise-if-isnt-tabular-data: only a list (or
tuple, identified with a list here) is accepted; anything else raises a
ValueError naming the actual type. -/
def raiseIfIsntTabularData (data : Option Value) : Except Err Unit :=
  match data with
  | some (.list _) => .ok ()
  | d => .error (.valueErr (typeNameOf d))

/-- Model of TabularResource parse-data: the base fetch, then the
string-to-structure step, then the tabular type check. -/
def parseDataTabular (w : World) (basePath : Option String) (md : Descriptor) : Parsed :=
  let p := parseDataBase w basePath md
  match p.result with
  | .error _ => p
  | .ok d =>
    let d2 := tabularTransform d
    match raiseIfIsntTabularData d2 with
    | .ok _ => { p with result := .ok d2 }
    | .error e => { p with result := .error e }

/- ## Construction, the data accessor and the factory -/

/-- The state a live Resource holds between accesses: the base path fixed at
construction, the identity snapshot from the last parse-data call, and the
cached data field. -/
structure ResState where
  basePath : Option String
  origIds : SnapIds
  data : Option Value

/-- The outcome of a constructor call. -/
structure InitOut where
  result : Except Err ResState
  fileReads : Nat
  httpGets : Nat

/-- The base path chosen in the Resource initializer: the base entry of the
metadata when present, else the caller-supplied default. -/
def baseOf (md : Descriptor) (defaultBase : Option String) : Option String :=
  match md.base with
  | some b => some b
  | none => defaultBase

/-- Model of the Resource initializer: fix the base path, then run
parse-data once; a raise there propagates and no resource is produced. -/
def resourceInit (w : World) (md : Descriptor) (defaultBase : Option String) : InitOut :=
  let bp := baseOf md defaultBase
  let p := parseDataBase w bp md
  match p.result with
  | .ok d => ⟨.ok ⟨bp, p.ids, d⟩, p.fileReads, p.httpGets⟩
  | .error e => ⟨.error e, p.fileReads, p.httpGets⟩

/-- Model of the TabularResource initializer: the same initializer body with
the overridden parse-data. -/
def tabularResourceInit (w : World) (md : Descriptor) (defaultBase : Option String) : InitOut :=
  let bp := baseOf md defaultBase
  let p := parseDataTabular w bp md
  match p.result with
  | .ok d => ⟨.ok ⟨bp, p.ids, d⟩, p.fileReads, p.httpGets⟩
  | .error e => ⟨.error e, p.fileReads, p.httpGets⟩

/-- The outcome of one access to the data property: the returned data or the
raised error, the state of the resource afterwards, and the I/O performed. -/
structure AccessOut where
  result : Except Err (Option Value)
  state : ResState
  fileReads : Nat
  httpGets : Nat

/-- Model of the Resource data property on a plain Resource: when the
identity snapshot of the (possibly caller-mutated) metadata md differs from
the stored one, rerun parse-data; the snapshot is updated even when the load
raises, while the cached data field is reassigned only on success. -/
def dataAccess (w : World) (r : ResState) (md : Descriptor) : AccessOut :=
  if metadataDataIds md ≠ r.origIds then
    let p := parseDataBase w r.basePath md
    match p.result with
    | .ok d => ⟨.ok d, ⟨r.basePath, p.ids, d⟩, p.fileReads, p.httpGets⟩
    | .error e => ⟨.error e, ⟨r.basePath, p.ids, r.data⟩, p.fileReads, p.httpGets⟩
  else ⟨.ok r.data, r, 0, 0⟩

/-- Model of the inherited data property on a TabularResource: identical,
but dispatching to the overridden parse-data. -/
def dataAccessTabular (w : World) (r : ResState) (md : Descriptor) : AccessOut :=
  if metadataDataIds md ≠ r.origIds then
    let p := parseDataTabular w r.basePath md
    match p.result with
    | .ok d => ⟨.ok d, ⟨r.basePath, p.ids, d⟩, p.fileReads, p.httpGets⟩
    | .error e => ⟨.error e, ⟨r.basePath, p.ids, r.data⟩, p.fileReads, p.httpGets⟩
  else ⟨.ok r.data, r, 0, 0⟩

/-- The result of the Resource.load factory: a TabularResource or a plain
Resource, each carrying its state. -/
inductive LoadedResource where
  | tabular (r : ResState)
  | plain (r : ResState)

/-- The state inside either factory outcome. -/
def LoadedResource.toState : LoadedResource → ResState
  | .tabular r => r
  | .plain r => r

/-- The outcome of the factory. -/
structure LoadOut where
  result : Except Err LoadedResource
  fileReads : Nat
  httpGets : Nat

/-- Model of the Resource.load factory: construct a TabularResource; when
that raises a ValueError (and only then), construct a plain Resource
instead; every other exception propagates.  The I/O of both attempts is
accumulated. -/
def resourceLoad (w : World) (md : Descriptor) (defaultBase : Option String) : LoadOut :=
  let t := tabularResourceInit w md defaultBase
  match t.result with
  | .ok r => ⟨.ok (.tabular r), t.fileReads, t.httpGets⟩
  | .error (.valueErr _) =>
    let p := resourceInit w md defaultBase
    ⟨p.result.map .plain, t.fileReads + p.fileReads, t.httpGets + p.httpGets⟩
  | .error e => ⟨.error e, t.fileReads, t.httpGets⟩

/-- Whether a result is a raised ValueError (the tabular type-mismatch). -/
def resultIsValueError {α : Type} : Except Err α → Bool
  | .error (.valueErr _) => true
  | _ => false

/- ## Concrete worlds and descriptors used in the claim instances -/

/-- A world with no files and no reachable URLs. -/
def w0 : World := ⟨fun _ => none, fun _ => none⟩

/-- A world whose only file, f, holds a JSON object. -/
def wJson : World :=
  ⟨fun p => if p = "f" then some "\x7b\"x\": 1\x7d" else none, fun _ => none⟩

/-- A descriptor whose path names the file f. -/
def mdJson : Descriptor := ⟨none, some ⟨0, "f"⟩, none, none⟩

/-- A world whose only file, j, holds a JSON array. -/
def wArr : World := ⟨fun p => if p = "j" then some "[1,2,3]" else none, fun _ => none⟩

/-- A descriptor whose path names the file j. -/
def mdArr : Descriptor := ⟨none, some ⟨0, "j"⟩, none, none⟩

/-- A world whose only file, c, holds a two-line CSV text. -/
def wCsv : World := ⟨fun p => if p = "c" then some "a,b\n1,2\n" else none, fun _ => none⟩

/-- A descriptor whose path names the file c. -/
def mdCsv : Descriptor := ⟨none, some ⟨0, "c"⟩, none, none⟩

/-- A world whose only file, h, holds plain text. -/
def wHello : World := ⟨fun p => if p = "h" then some "hello" else none, fun _ => none⟩

/-- A descriptor whose path entry is the string h held by an object with the
given identity: two instances model the caller replacing the path with a
textually identical new string object. -/
def mdH (oid : Nat) : Descriptor := ⟨none, some ⟨oid, "h"⟩, none, none⟩

/-- The state of the plain Resource constructed over wHello and mdH 1. -/
def rHello : ResState := ⟨none, ⟨0, 2, 0⟩, some (.str "hello")⟩

/-- A world whose only file, f, holds the text hi. -/
def wHi : World := ⟨fun p => if p = "f" then some "hi" else none, fun _ => none⟩

/-- A descriptor pointing at the existing file f. -/
def md4a : Descriptor := ⟨none, some ⟨1, "f"⟩, none, none⟩

/-- The same descriptor after the caller replaced the path with a new string
object g naming no file and no reachable URL. -/
def md4b : Descriptor := ⟨none, some ⟨2, "g"⟩, none, none⟩

/-- The resource state after construction over wHi and md4a. -/
def r4 : ResState := ⟨none, ⟨0, 2, 0⟩, some (.str "hi")⟩

/-- The resource state after the failed access with md4b: the identity
snapshot was updated, the cached data was not. -/
def r4b : ResState := ⟨none, ⟨0, 3, 0⟩, some (.str "hi")⟩

/-- A descriptor with both a path and a url, neither reachable in w0. -/
def md5 : Descriptor := ⟨none, some ⟨1, "p"⟩, some ⟨2, "u"⟩, none⟩

/-- A descriptor with only inline data, holding a dict. -/
def md7 : Descriptor := ⟨some ⟨3, .dict [("x", .num 1)]⟩, none, none, none⟩

/-- A descriptor with only inline data, holding a list. -/
def md8a : Descriptor := ⟨some ⟨1, .list [.num 1]⟩, none, none, none⟩

/-- The descriptor md8a after the caller replaced the inline data with a new
object holding a dict. -/
def md8b : Descriptor := ⟨some ⟨2, .dict [("x", .num 1)]⟩, none, none, none⟩

/-- The state of the TabularResource constructed over w0 and md8a. -/
def r8 : ResState := ⟨none, ⟨2, 0, 0⟩, some (.list [.num 1])⟩

/-- A world whose only file, e, holds a header-only CSV text. -/
def w9 : World := ⟨fun p => if p = "e" then some "a,b\n" else none, fun _ => none⟩

/-- A descriptor whose path names the file e. -/
def md9 : Descriptor := ⟨none, some ⟨0, "e"⟩, none, none⟩

/-- A world with no files whose only reachable URL, u, serves a JSON object. -/
def wUrl : World :=
  ⟨fun _ => none, fun u => if u = "u" then some "\x7b\"x\": 1\x7d" else none⟩

/-- A descriptor with only a url entry, naming u. -/
def mdUrl : Descriptor := ⟨none, none, some ⟨5, "u"⟩, none⟩

/- ## Supporting lemmas -/

/-- The path step records no error or a ResourceError. -/
theorem loadDataPathStep_error_shape (w : World) (bp : Option String) (md : Descriptor) :
    (loadDataPathStep w bp md).error = none ∨
    ∃ u, (loadDataPathStep w bp md).error = some (.resource u) := by
  unfold loadDataPathStep
  split
  · split
    · exact Or.inl rfl
    · split
      · exact Or.inl rfl
      · split
        · exact Or.inl rfl
        · exact Or.inr ⟨_, rfl⟩
  · exact Or.inl rfl

/-- The url step preserves the error shape of the path step. -/
theorem loadDataUrlStep_error_shape (w : World) (md : Descriptor) (st : LoadSt)
    (h : st.error = none ∨ ∃ u, st.error = some (.resource u)) :
    (loadDataUrlStep w md st).error = none ∨
    ∃ u, (loadDataUrlStep w md st).error = some (.resource u) := by
  unfold loadDataUrlStep
  split
  · split
    · exact h
    · split
      · exact h
      · rcases h with h | ⟨u, h⟩
        · simp only [h, Option.isSome_none, Bool.false_eq_true, if_false]
          exact Or.inr ⟨_, rfl⟩
        · simp only [h, Option.isSome_some, if_true]
          exact Or.inr ⟨u, rfl⟩
  · exact h

/-- Every exception the fetch pipeline raises is a ResourceError, never a
ValueError. -/
theorem loadData_error_is_resource (w : World) (bp : Option String) (md : Descriptor) (e : Err)
    (h : (loadData w bp md).result = .error e) : ∃ u, e = .resource u := by
  have hst := loadDataUrlStep_error_shape w md _ (loadDataPathStep_error_shape w bp md)
  simp only [loadData] at h
  split at h
  next e2 heq1 heq2 =>
    simp only [Except.error.injEq] at h
    subst h
    rcases hst with hst | ⟨u, hst⟩
    · rw [heq2] at hst; cases hst
    · rw [heq2] at hst
      injection hst with h2
      exact ⟨u, h2⟩
  next =>
    simp at h

/-- The base parse-data stores the identity snapshot of its argument. -/
theorem parseDataBase_ids (w : World) (bp : Option String) (md : Descriptor) :
    (parseDataBase w bp md).ids = metadataDataIds md := rfl

/-- The tabular parse-data stores the identity snapshot of its argument. -/
theorem parseDataTabular_ids (w : World) (bp : Option String) (md : Descriptor) :
    (parseDataTabular w bp md).ids = metadataDataIds md := by
  simp only [parseDataTabular]
  split
  · rfl
  · split <;> rfl

/-- The tabular parse-data performs exactly the I/O of the fetch pipeline:
the JSON and CSV parsing steps do no I/O of their own. -/
theorem parseDataTabular_effects (w : World) (bp : Option String) (md : Descriptor) :
    (parseDataTabular w bp md).fileReads = (loadData w bp md).fileReads ∧
    (parseDataTabular w bp md).httpGets = (loadData w bp md).httpGets := by
  simp only [parseDataTabular]
  split
  · exact ⟨rfl, rfl⟩
  · split <;> exact ⟨rfl, rfl⟩

/-- Constructing a plain Resource performs exactly one fetch pipeline run. -/
theorem resourceInit_effects (w : World) (md : Descriptor) (b : Option String) :
    (resourceInit w md b).fileReads = (loadData w (baseOf md b) md).fileReads ∧
    (resourceInit w md b).httpGets = (loadData w (baseOf md b) md).httpGets := by
  simp only [resourceInit]
  split <;> exact ⟨rfl, rfl⟩

/-- Constructing a TabularResource performs exactly one fetch pipeline run. -/
theorem tabularResourceInit_effects (w : World) (md : Descriptor) (b : Option String) :
    (tabularResourceInit w md b).fileReads = (loadData w (baseOf md b) md).fileReads ∧
    (tabularResourceInit w md b).httpGets = (loadData w (baseOf md b) md).httpGets := by
  have h := parseDataTabular_effects w (baseOf md b) md
  simp only [tabularResourceInit]
  split <;> exact h

/-- Every exception the plain Resource constructor raises is a
ResourceError. -/
theorem resourceInit_error_is_resource (w : World) (md : Descriptor) (b : Option String) (e : Err)
    (h : (resourceInit w md b).result = .error e) : ∃ u, e = .resource u := by
  simp only [resourceInit] at h
  split at h
  next => simp at h
  next e2 heq =>
    simp only [Except.error.injEq] at h
    subst h
    exact loadData_error_is_resource w (baseOf md b) md e2 heq

/-- A data access whose identity snapshot matches the stored one returns
the cached data, leaves the state unchanged and performs no I/O. -/
theorem dataAccess_cache_hit (w : World) (r : ResState) (md : Descriptor)
    (h : metadataDataIds md = r.origIds) : dataAccess w r md = ⟨.ok r.data, r, 0, 0⟩ := by
  simp only [dataAccess, h, ne_eq, not_true_eq_false, if_false]

/-- A stale data access whose reload succeeds returns the fresh data and
stores it together with the fresh identity snapshot. -/
theorem dataAccess_miss_ok (w : World) (r : ResState) (md : Descriptor) (d : Option Value)
    (hne : metadataDataIds md ≠ r.origIds)
    (heq : (parseDataBase w r.basePath md).result = .ok d) :
    dataAccess w r md = ⟨.ok d, ⟨r.basePath, metadataDataIds md, d⟩,
      (parseDataBase w r.basePath md).fileReads, (parseDataBase w r.basePath md).httpGets⟩ := by
  simp only [dataAccess, if_pos hne]
  rw [heq]
  rfl

/-- A stale data access whose reload raises propagates the error, updates
the identity snapshot, and keeps the old cached data. -/
theorem dataAccess_miss_error (w : World) (r : ResState) (md : Descriptor) (e : Err)
    (hne : metadataDataIds md ≠ r.origIds)
    (heq : (parseDataBase w r.basePath md).result = .error e) :
    dataAccess w r md = ⟨.error e, ⟨r.basePath, metadataDataIds md, r.data⟩,
      (parseDataBase w r.basePath md).fileReads, (parseDataBase w r.basePath md).httpGets⟩ := by
  simp only [dataAccess, if_pos hne]
  rw [heq]
  rfl

/- ## Claims -/

/-- C1: the factory attempts TabularResource construction first; exactly a
ValueError (the tabular type-mismatch) triggers fallback to a plain
Resource, a ResourceError propagates unchanged, a success is returned as
the tabular resource; and for a descriptor whose path names a local file
holding a JSON object text, the factory returns a plain Resource whose data
is the raw text. -/
theorem c1_factory_tabular_first_fallback :
    (∀ w md b r, (tabularResourceInit w md b).result = .ok r →
        (resourceLoad w md b).result = .ok (.tabular r)) ∧
    (∀ w md b s, (tabularResourceInit w md b).result = .error (.valueErr s) →
        (resourceLoad w md b).result = (resourceInit w md b).result.map .plain) ∧
    (∀ w md b u, (tabularResourceInit w md b).result = .error (.resource u) →
        (resourceLoad w md b).result = .error (.resource u)) ∧
    (resourceLoad wJson mdJson none).result
      = .ok (.plain ⟨none, ⟨0, 1, 0⟩, some (.str "\x7b\"x\": 1\x7d")⟩) := by
  refine ⟨?_, ?_, ?_, rfl⟩ <;> intro w md b x h <;> simp only [resourceLoad] <;> rw [h]

/-- C1 witness: the fallback hypothesis holds at the JSON-object world. -/
theorem c1_witness :
    (resourceLoad wJson mdJson none).result
      = (resourceInit wJson mdJson none).result.map .plain :=
  c1_factory_tabular_first_fallback.2.1 wJson mdJson none "dict" rfl

/-- C2: on textual content the TabularResource tries a JSON parse first and
uses the parsed value as-is when it succeeds; only when the JSON parse
fails is the text read as CSV with the first line as field names; a file
holding a JSON array text yields the array via the JSON path, and a
two-line CSV file yields the corresponding row dict. -/
theorem c2_json_before_csv :
    (∀ s v, jsonLoads s = some v → tabularTransform (some (.str s)) = some v) ∧
    (∀ s, jsonLoads s = none →
        tabularTransform (some (.str s))
          = match csvDictRows s with | [] => none | rows => some (.list rows)) ∧
    jsonLoads "[1,2,3]" = some (.list [.num 1, .num 2, .num 3]) ∧
    (resourceLoad wArr mdArr none).result
      = .ok (.tabular ⟨none, ⟨0, 1, 0⟩, some (.list [.num 1, .num 2, .num 3])⟩) ∧
    jsonLoads "a,b\n1,2\n" = none ∧
    (resourceLoad wCsv mdCsv none).result
      = .ok (.tabular ⟨none, ⟨0, 1, 0⟩,
          some (.list [.dict [("a", .str "1"), ("b", .str "2")]])⟩) := by
  refine ⟨?_, ?_, rfl, rfl, rfl, rfl⟩
  · intro s v h; simp only [tabularTransform]; rw [h]
  · intro s h; simp only [tabularTransform]; rw [h]

/-- C2 witness: the JSON-first hypothesis holds at the array text. -/
theorem c2_witness :
    tabularTransform (some (.str "[1,2,3]")) = some (.list [.num 1, .num 2, .num 3]) :=
  c2_json_before_csv.1 "[1,2,3]" (.list [.num 1, .num 2, .num 3]) rfl

/-- C3: the cache is keyed on object identity: while the identities of the
data, path and url fields match the stored snapshot, a data access returns
the cached content with no fetch; when any identity differs, the access
performs and returns a full fresh fetch; in particular replacing the path
with a textually identical new string object forces a new file read. -/
theorem c3_identity_keyed_cache :
    (∀ w r md, metadataDataIds md = r.origIds → dataAccess w r md = ⟨.ok r.data, r, 0, 0⟩) ∧
    (∀ w r md, metadataDataIds md ≠ r.origIds →
        (dataAccess w r md).fileReads = (loadData w r.basePath md).fileReads ∧
        (dataAccess w r md).httpGets = (loadData w r.basePath md).httpGets ∧
        (dataAccess w r md).result = (loadData w r.basePath md).result) ∧
    (resourceInit wHello (mdH 1) none).result = .ok rHello ∧
    dataAccess wHello rHello (mdH 2)
      = ⟨.ok (some (.str "hello")), ⟨none, ⟨0, 3, 0⟩, some (.str "hello")⟩, 1, 0⟩ := by
  refine ⟨?_, ?_, rfl, rfl⟩
  · intro w r md h
    simp only [dataAccess, h, ne_eq, not_true_eq_false, if_false]
  · intro w r md h
    simp only [dataAccess, if_pos h]
    split
    next d heq => exact ⟨rfl, rfl, heq.symm⟩
    next e heq => exact ⟨rfl, rfl, heq.symm⟩

/-- C3 witness: the matching-identities hypothesis holds for the freshly
constructed resource over wHello. -/
theorem c3_witness :
    dataAccess wHello rHello (mdH 1) = ⟨.ok rHello.data, rHello, 0, 0⟩ :=
  c3_identity_keyed_cache.1 wHello rHello (mdH 1) rfl

/-- C4 counterexample: over wHi, after the caller repoints the path at an
unreachable location, the first data access raises the fetch error, but the
second access with the descriptor unchanged performs no file read and no
HTTP GET and silently returns the stale cached text, even though a fresh
fetch would still fail; the claimed retry does not happen. -/
theorem c4_counterexample :
    (resourceInit wHi md4a none).result = .ok r4 ∧
    dataAccess wHi r4 md4b = ⟨.error (.resource "g"), r4b, 0, 1⟩ ∧
    dataAccess wHi r4b md4b = ⟨.ok (some (.str "hi")), r4b, 0, 0⟩ ∧
    (loadData wHi r4b.basePath md4b).result = .error (.resource "g") :=
  ⟨rfl, rfl, rfl, rfl⟩

/-- C4 amended: a data access that raises a fetch error has already updated
the stored identity snapshot to the current descriptor, so a subsequent
access with the descriptor unchanged since the failure does not fetch again:
it returns the stale previously cached data with no I/O. -/
theorem c4_amended_failed_access_poisons (w : World) (r : ResState) (md : Descriptor) (e : Err)
    (h : (dataAccess w r md).result = .error e) :
    (dataAccess w r md).state = ⟨r.basePath, metadataDataIds md, r.data⟩ ∧
    dataAccess w ((dataAccess w r md).state) md
      = ⟨.ok r.data, (dataAccess w r md).state, 0, 0⟩ := by
  by_cases hid : metadataDataIds md = r.origIds
  · rw [dataAccess_cache_hit w r md hid] at h
    simp at h
  · have hne : metadataDataIds md ≠ r.origIds := hid
    cases heq : (parseDataBase w r.basePath md).result with
    | ok d => rw [dataAccess_miss_ok w r md d hne heq] at h; simp at h
    | error e2 =>
      rw [dataAccess_miss_error w r md e2 hne heq]
      exact ⟨rfl, dataAccess_cache_hit _ _ _ rfl⟩

/-- C4 witness: the failed-access hypothesis holds at the wHi scenario. -/
theorem c4_witness :
    dataAccess wHi ((dataAccess wHi r4 md4b).state) md4b
      = ⟨.ok r4.data, (dataAccess wHi r4 md4b).state, 0, 0⟩ :=
  (c4_amended_failed_access_poisons wHi r4 md4b (.resource "g") rfl).2

/-- C5: when the path attempt fails (not a local file, and its GET as a URL
fails) and the url attempt also fails, the fetch pipeline surfaces the
error recorded from the path attempt, not the later url attempt. -/
theorem c5_first_error_wins (w : World) (bp : Option String) (md : Descriptor) (p u : Obj String)
    (hd : md.data = none) (hp : md.path = some p) (hpt : ¬ p.val = "")
    (hlocal : localDataPath w bp md = none)
    (hhp : w.http (absJoin bp p.val) = none)
    (hu : md.url = some u) (hut : ¬ u.val = "")
    (hhu : w.http u.val = none) :
    (loadData w bp md).result = .error (.resource (absJoin bp p.val)) := by
  have hst1 : loadDataPathStep w bp md = ⟨none, some (.resource (absJoin bp p.val)), 0, 1⟩ := by
    simp only [loadDataPathStep, hd, hp]
    rw [if_neg hpt, hlocal, hhp]
  have hst2 : loadDataUrlStep w md (loadDataPathStep w bp md)
      = ⟨none, some (.resource (absJoin bp p.val)), 0, 2⟩ := by
    rw [hst1]
    simp only [loadDataUrlStep, hu]
    rw [if_neg hut, hhu]
    rfl
  simp only [loadData, hst2]

/-- C5 witness: both attempts fail in the empty world w0. -/
theorem c5_witness : (loadData w0 none md5).result = .error (.resource "p") :=
  c5_first_error_wins w0 none md5 ⟨1, "p"⟩ ⟨2, "u"⟩ rfl rfl (by decide) rfl rfl rfl
    (by decide) rfl

/-- C6: after a successful data access, a second access with no descriptor
replacement in between performs no file read and no HTTP GET, returns the
same value, and leaves the state unchanged, so two consecutive accesses
fetch at most once in total. -/
theorem c6_idempotent_access (w : World) (r : ResState) (md : Descriptor) (v : Option Value)
    (h : (dataAccess w r md).result = .ok v) :
    (dataAccess w r md).state.data = v ∧
    (dataAccess w r md).state.origIds = metadataDataIds md ∧
    dataAccess w ((dataAccess w r md).state) md = ⟨.ok v, (dataAccess w r md).state, 0, 0⟩ := by
  by_cases hid : metadataDataIds md = r.origIds
  · have hacc := dataAccess_cache_hit w r md hid
    rw [hacc] at h
    have hv : r.data = v := by simpa using h
    subst hv
    rw [hacc]
    exact ⟨rfl, hid.symm, dataAccess_cache_hit w r md hid⟩
  · have hne : metadataDataIds md ≠ r.origIds := hid
    cases heq : (parseDataBase w r.basePath md).result with
    | error e =>
      rw [dataAccess_miss_error w r md e hne heq] at h
      simp at h
    | ok d =>
      rw [dataAccess_miss_ok w r md d hne heq] at h ⊢
      have hv : d = v := by simpa using h
      subst hv
      exact ⟨rfl, rfl, dataAccess_cache_hit _ _ _ rfl⟩

/-- C6 witness: the successful-access hypothesis holds over wHello after a
path replacement. -/
theorem c6_witness :
    dataAccess wHello ((dataAccess wHello rHello (mdH 2)).state) (mdH 2)
      = ⟨.ok (some (.str "hello")), (dataAccess wHello rHello (mdH 2)).state, 0, 0⟩ :=
  (c6_idempotent_access wHello rHello (mdH 2) (some (.str "hello")) rfl).2.2

/-- C7: for a descriptor with only inline data set to a non-null structured
(non-textual) value V, the factory-loaded resource holds data V verbatim
and the whole load performs no file read and no HTTP GET. -/
theorem c7_inline_data_short_circuit (w : World) (b : Option String) (oid : Nat) (v : Value)
    (hs : ∀ s, v ≠ .str s) (hn : v ≠ .null) :
    (resourceLoad w ⟨some ⟨oid, v⟩, none, none, none⟩ b).fileReads = 0 ∧
    (resourceLoad w ⟨some ⟨oid, v⟩, none, none, none⟩ b).httpGets = 0 ∧
    ∃ lr, (resourceLoad w ⟨some ⟨oid, v⟩, none, none, none⟩ b).result = .ok lr ∧
          lr.toState.data = some v := by
  cases v with
  | null => exact absurd rfl hn
  | str s => exact absurd rfl (hs s)
  | bool bb => exact ⟨rfl, rfl, ⟨.plain ⟨b, ⟨oid + 1, 0, 0⟩, some (.bool bb)⟩, rfl, rfl⟩⟩
  | num n => exact ⟨rfl, rfl, ⟨.plain ⟨b, ⟨oid + 1, 0, 0⟩, some (.num n)⟩, rfl, rfl⟩⟩
  | list xs => exact ⟨rfl, rfl, ⟨.tabular ⟨b, ⟨oid + 1, 0, 0⟩, some (.list xs)⟩, rfl, rfl⟩⟩
  | dict kvs => exact ⟨rfl, rfl, ⟨.plain ⟨b, ⟨oid + 1, 0, 0⟩, some (.dict kvs)⟩, rfl, rfl⟩⟩

/-- C7 witness: the non-textual non-null hypotheses hold for an inline
dict. -/
theorem c7_witness :
    (resourceLoad w0 md7 none).fileReads = 0 ∧
    (resourceLoad w0 md7 none).httpGets = 0 ∧
    ∃ lr, (resourceLoad w0 md7 none).result = .ok lr ∧
          lr.toState.data = some (.dict [("x", .num 1)]) :=
  c7_inline_data_short_circuit w0 none 3 (.dict [("x", .num 1)])
    (fun _ h => Value.noConfusion h) (fun h => Value.noConfusion h)

/-- C8 counterexample: a TabularResource built from inline list data is
returned by the factory; after the caller replaces the inline data with a
dict object, the next data access raises the tabular type-mismatch
ValueError to the caller, so the error is observable past the factory. -/
theorem c8_counterexample :
    (resourceLoad w0 md8a none).result = .ok (.tabular r8) ∧
    (dataAccessTabular w0 r8 md8b).result = .error (.valueErr "dict") :=
  ⟨rfl, rfl⟩

/-- C8 amended: the factory itself never returns the tabular type-mismatch
ValueError, converting it into a plain-Resource construction; but a later
data access on a TabularResource whose descriptor now holds non-tabular
content does raise that error to the caller. -/
theorem c8_amended_confined_to_factory :
    (∀ w md b, resultIsValueError (resourceLoad w md b).result = false) ∧
    (dataAccessTabular w0 r8 md8b).result = .error (.valueErr "dict") ∧
    (resourceLoad w0 md8a none).result = .ok (.tabular r8) := by
  refine ⟨?_, rfl, rfl⟩
  intro w md b
  simp only [resourceLoad]
  split
  · rfl
  · cases hp : (resourceInit w md b).result with
    | ok r => rfl
    | error e2 =>
      obtain ⟨u, rfl⟩ := resourceInit_error_is_resource w md b e2 hp
      rfl
  · next e2 hne2 _ =>
      cases e2 with
      | resource u => rfl
      | valueErr s => exact absurd rfl (hne2 s)

/-- C9 counterexample: for a header-only CSV file, TabularResource
construction fails with the NoneType type-mismatch and the factory returns
a plain Resource whose data is the raw CSV text, not the absent value. -/
theorem c9_counterexample :
    (tabularResourceInit w9 md9 none).result = .error (.valueErr "NoneType") ∧
    (resourceLoad w9 md9 none).result
      = .ok (.plain ⟨none, ⟨0, 1, 0⟩, some (.str "a,b\n")⟩) ∧
    some (Value.str "a,b\n") ≠ (none : Option Value) :=
  ⟨rfl, rfl, fun h => Option.noConfusion h⟩

/-- C9 amended: the CSV parse of a header-only body yields the absent value
None rather than an empty sequence; that None then fails the tabular type
check, so TabularResource construction fails and the factory returns a
plain Resource whose data is the raw CSV text. -/
theorem c9_amended_empty_csv :
    (∀ s, jsonLoads s = none → csvDictRows s = [] →
        tabularTransform (some (.str s)) = none ∧
        raiseIfIsntTabularData (tabularTransform (some (.str s)))
          = .error (.valueErr "NoneType")) ∧
    csvDictRows "a,b\n" = [] ∧
    (tabularResourceInit w9 md9 none).result = .error (.valueErr "NoneType") ∧
    (resourceLoad w9 md9 none).result
      = .ok (.plain ⟨none, ⟨0, 1, 0⟩, some (.str "a,b\n")⟩) := by
  refine ⟨?_, rfl, rfl, rfl⟩
  intro s hj hc
  have ht : tabularTransform (some (.str s)) = none := by
    simp only [tabularTransform]
    rw [hj, hc]
  refine ⟨ht, ?_⟩
  rw [ht]
  rfl

/-- C9 witness: the hypotheses hold at the header-only CSV text. -/
theorem c9_witness :
    tabularTransform (some (.str "a,b\n")) = none ∧
    raiseIfIsntTabularData (tabularTransform (some (.str "a,b\n")))
      = .error (.valueErr "NoneType") :=
  c9_amended_empty_csv.1 "a,b\n" rfl rfl

/-- C10: when the factory falls back because tabular construction raised
the type-mismatch ValueError, the plain construction reruns the whole fetch
pipeline, so the load performs exactly twice the I/O of one pipeline run;
concretely two file reads for the path case and two HTTP GETs for the url
case. -/
theorem c10_fallback_fetches_twice :
    (∀ w md b s, (tabularResourceInit w md b).result = .error (.valueErr s) →
        (resourceLoad w md b).fileReads = 2 * (loadData w (baseOf md b) md).fileReads ∧
        (resourceLoad w md b).httpGets = 2 * (loadData w (baseOf md b) md).httpGets) ∧
    (resourceLoad wJson mdJson none).fileReads = 2 ∧
    (resourceLoad wUrl mdUrl none).httpGets = 2 := by
  refine ⟨?_, rfl, rfl⟩
  intro w md b s h
  have h1 := tabularResourceInit_effects w md b
  have h2 := resourceInit_effects w md b
  simp only [resourceLoad]
  rw [h]
  constructor
  · show (tabularResourceInit w md b).fileReads + (resourceInit w md b).fileReads = _
    rw [h1.1, h2.1, two_mul]
  · show (tabularResourceInit w md b).httpGets + (resourceInit w md b).httpGets = _
    rw [h1.2, h2.2, two_mul]

/-- C10 witness: the ValueError hypothesis holds at the JSON-object world. -/
theorem c10_witness :
    (resourceLoad wJson mdJson none).fileReads
      = 2 * (loadData wJson (baseOf mdJson none) mdJson).fileReads ∧
    (resourceLoad wJson mdJson none).httpGets
      = 2 * (loadData wJson (baseOf mdJson none) mdJson).httpGets :=
  c10_fallback_fetches_twice.1 wJson mdJson none "dict" rfl

end Datapackage
